import Mathlib

/-
Verification development for the nodertc WebRTC endpoint.

Shallow embedding of the core of the repository:
  * `lib/candidates.js` (ordered ICE candidate collection, backed by
    `sorted.add` of the sorted-array-functions dependency with the
    comparator `(left, right) => left.priority < right.priority ? 1 : -1`),
  * `lib/sdp.js` (`create`: fixed-shape SDP answer with candidate lines and
    the RFC 8445 priority computation),
  * the `Session` class of the main module (`createAnswer`, `listen`,
    `startSTUN`, `startDTLS`, `startSCTP`, `appendCandidate`, and the STUN
    binding-request handler installed by `startSTUN`),
  * the signalling handlers `handleOffer`, `handleCandidate`,
    `getCandidates` and the `createCandidate` helper of `index.js`.

Stateful code is embedded as explicit state passing: a `Session` record, a
step function over externally observable events, and `Except` results for
code paths that throw.
-/

namespace NodeRTC

/-! ## String helpers

JavaScript `String.prototype.includes`, embedded over the character list of
a string. `listStartsWith pat l` is true when `pat` is an initial segment
of `l`. -/

def listStartsWith : List Char → List Char → Bool
  | [], _ => true
  | _ :: _, [] => false
  | a :: as, b :: bs => a == b && listStartsWith as bs

def listContains (sub : List Char) : List Char → Bool
  | [] => listStartsWith sub []
  | c :: t => listStartsWith sub (c :: t) || listContains sub t

/-- JavaScript `s.includes(sub)`: `sub` occurs as a contiguous substring of
`s`. -/
def jsIncludes (s : String) (sub : String) : Bool :=
  listContains sub.data s.data

/-! ## net.isIPv4 (external collaborator)

`createAnswer` filters inline candidates through Node's `net.isIPv4`.  The
collaborator is embedded as a dotted-quad check: four dot-separated decimal
octets, each 0..255 with no leading zero. -/

def splitOnDot : List Char → List (List Char)
  | [] => [[]]
  | c :: rest =>
    if c == '.' then [] :: splitOnDot rest
    else
      match splitOnDot rest with
      | [] => [[c]]
      | g :: gs => (c :: g) :: gs

def octetValue (p : List Char) : Nat :=
  p.foldl (fun acc c => acc * 10 + (c.toNat - 48)) 0

def isOctet (p : List Char) : Bool :=
  !p.isEmpty && p.length ≤ 3 && p.all Char.isDigit &&
    octetValue p ≤ 255 &&
    (p.head? != some '0' || p == ['0'])

def isIPv4 (s : String) : Bool :=
  let parts := splitOnDot s.data
  parts.length == 4 && parts.all isOctet

/-! ## Candidate set (`lib/candidates.js`)

`Candidates.push` calls `sorted.add(list, value, filter)` with
`filter = (left, right) => left.priority < right.priority ? 1 : -1`.
That comparator never returns 0, so the new element is inserted in front of
the first element of strictly smaller priority — descending priority order,
ties broken by insertion order.  `sortedAdd` is that insertion. -/

structure Candidate where
  address : String
  port : Nat
  priority : Nat
deriving DecidableEq

def sortedAdd (l : List Candidate) (v : Candidate) : List Candidate :=
  match l with
  | [] => [v]
  | x :: xs => if x.priority < v.priority then v :: x :: xs else x :: sortedAdd xs v

structure Candidates where
  list : List Candidate
deriving DecidableEq

def Candidates.empty : Candidates := ⟨[]⟩

def Candidates.push (s : Candidates) (address : String) (port priority : Nat) :
    Candidates :=
  ⟨sortedAdd s.list ⟨address, port, priority⟩⟩

def Candidates.length (s : Candidates) : Nat := s.list.length

/-- Getter `primaryAddress`: throws `Error('Empty list of candidates.')` on
an empty collection, else the address of the first (highest-priority)
element. -/
def Candidates.primaryAddress (s : Candidates) : Except String String :=
  match s.list with
  | [] => Except.error "Empty list of candidates."
  | c :: _ => Except.ok c.address

/-- Getter `primaryPort`, same shape as `primaryAddress`. -/
def Candidates.primaryPort (s : Candidates) : Except String Nat :=
  match s.list with
  | [] => Except.error "Empty list of candidates."
  | c :: _ => Except.ok c.port

/-- Descending-priority order: each element dominates all later ones. -/
abbrev Descending (l : List Candidate) : Prop :=
  l.Pairwise (fun a b => b.priority ≤ a.priority)

/-! ## SDP serialiser (`lib/sdp.js` `create`) -/

/-- Input candidate record passed by `Session.createAnswer` to
`sdp.create`. -/
structure InCandidate where
  ip : String
  port : Nat
  ctype : String
deriving DecidableEq

/-- Candidate object produced inside `sdp.create`'s `candidates.map`
callback; serialised by sdp-transform as one `a=candidate:` line. -/
structure OutCandidate where
  ip : String
  port : Nat
  ctype : String
  priority : Nat
  transport : String
  component : Nat
  foundation : Nat
  raddr : Option String
  rport : Option Nat
deriving DecidableEq

/-- The `switch (type)` on type preference in `sdp.create`; default leaves
the preference 0. -/
def typePreference (t : String) : Nat :=
  if t == "host" then 126
  else if t == "srflx" then 64
  else if t == "prflx" then 16
  else if t == "relay" then 8
  else 0

/-- `priority = 0x1000000 * typePreference + 256 * localPreference + 256 -
componentId` with `componentId = 1` and `localPreference = type == 'host' ?
65535 : 0`, exactly as computed in `sdp.create`. -/
def candidatePriority (t : String) : Nat :=
  let componentId := 1
  let localPreference := if t == "host" then 65535 else 0
  0x1000000 * typePreference t + 256 * localPreference + 256 - componentId

/-- One step of the `candidates.map` callback: index 0 is emitted without a
related address, later entries carry `raddr`/`rport` of the first
candidate. -/
def mkOutCandidate (first : InCandidate) (i : Nat) (c : InCandidate) :
    OutCandidate :=
  if i == 0 then
    ⟨c.ip, c.port, c.ctype, candidatePriority c.ctype, "udp", 1, i, none, none⟩
  else
    ⟨c.ip, c.port, c.ctype, candidatePriority c.ctype, "udp", 1, i,
      some first.ip, some first.port⟩

def mapOutCandidates (first : InCandidate) (i : Nat) :
    List InCandidate → List OutCandidate
  | [] => []
  | c :: rest => mkOutCandidate first i c :: mapOutCandidates first (i + 1) rest

/-- The `candidates.map((c, i) => …)` of `sdp.create`. -/
def sdpCreateCandidates (cands : List InCandidate) : List OutCandidate :=
  match cands with
  | [] => []
  | first :: _ => mapOutCandidates first 0 cands

/-- `a=sctpmap` data of the answer. -/
structure Sctpmap where
  sctpmapNumber : Nat
  app : String
  maxMessageSize : Nat
deriving DecidableEq

/-- The answer document built by `sdp.create`: the session-level constants
and the single `m=application` section. -/
structure Answer where
  sessionId : String
  sessionVersion : Nat
  bundleMids : String
  mediaType : String
  port : Nat
  protocol : String
  payloads : Nat
  setup : String
  iceUfrag : String
  icePwd : String
  mid : String
  fingerprintType : String
  fingerprintHash : String
  connectionIp : String
  sctpmap : Sctpmap
  candidates : List OutCandidate
deriving DecidableEq

/-- `sdp.create({username, password, fingerprint, mid, candidates})`. -/
def sdpCreate (username password fgprint mid : String)
    (candidates : List InCandidate) : Answer :=
  { sessionId := "3497579305088229251"
    sessionVersion := 2
    bundleMids := mid
    mediaType := "application"
    port := 9
    protocol := "DTLS/SCTP"
    payloads := 5000
    setup := "active"
    iceUfrag := username
    icePwd := password
    mid := mid
    fingerprintType := "sha-256"
    fingerprintHash := fgprint
    connectionIp := "0.0.0.0"
    sctpmap := ⟨5000, "webrtc-datachannel", 1024⟩
    candidates := sdpCreateCandidates candidates }

/-! ## Parsed offer (sdp-transform view consumed by `createAnswer`)

`Option` fields model attributes that sdp-transform leaves `undefined` when
the corresponding SDP lines are absent (in particular `candidates` is
`undefined`, not an empty array, when the media section carries no inline
`a=candidate:` lines). -/

structure FingerprintAttr where
  ftype : String
  hash : String
deriving DecidableEq

structure OfferCandidate where
  ip : String
  port : Nat
  priority : Nat
deriving DecidableEq

structure MediaSection where
  protocol : String
  iceUfrag : String
  icePwd : String
  fingerprint : Option FingerprintAttr
  candidates : Option (List OfferCandidate)
deriving DecidableEq

structure Group where
  mids : String
deriving DecidableEq

structure Offer where
  media : List MediaSection
  fingerprint : Option FingerprintAttr
  groups : Option (List Group)
deriving DecidableEq

/-- `media.find(item => item.protocol.includes('DTLS/SCTP'))`. -/
def findMediaData (media : List MediaSection) : Option MediaSection :=
  media.find? (fun item => jsIncludes item.protocol "DTLS/SCTP")

/-- `(fgprint && fgprint.hash) || mediadata.fingerprint.hash`: the
session-level fingerprint wins when present; reading `.hash` of an absent
media fingerprint throws a TypeError. -/
def resolvePeerFingerprint (sessionFp mediaFp : Option FingerprintAttr) :
    Except String String :=
  match sessionFp with
  | some f => Except.ok f.hash
  | none =>
    match mediaFp with
    | some f => Except.ok f.hash
    | none => Except.error "TypeError: Cannot read property hash of undefined"

/-! ## Session (the `Session` class of the main module)

The mutable symbol-keyed fields become record fields; sub-agents are
tracked by the booleans that record whether the corresponding constructor
ran (`stun.createServer`, `dtls.connect`, `sctp.createServer`) and whether
the DTLS `connect` event has fired.  `dtlsHandlerArmed` records the pending
`stun.once(STUN_EVENT_BINDING_RESPONSE, () => this.startDTLS())`
registration made in `listen`. -/

structure Unicast where
  remoteAddress : String
  remotePort : Nat
deriving DecidableEq

structure Session where
  internalIp : String
  publicIp : String
  fingerprint : String
  iceUsername : String
  icePassword : String
  peerIceUsername : Option String
  peerIcePassword : Option String
  peerFingerprint : Option String
  offer : Option Offer
  answer : Option Answer
  candidates : Candidates
  usocket : Option Unicast
  socketBound : Bool
  port : Nat
  stunStarted : Bool
  dtlsHandlerArmed : Bool
  dtlsStarted : Bool
  dtlsConnected : Bool
  sctpStarted : Bool
deriving DecidableEq

/-- The `Session` constructor; `username`/`password` stand for the random
`createUsername()`/`createPassword()` draws. -/
def initSession (internal ext fgprint username password : String) : Session :=
  { internalIp := internal
    publicIp := ext
    fingerprint := fgprint
    iceUsername := username
    icePassword := password
    peerIceUsername := none
    peerIcePassword := none
    peerFingerprint := none
    offer := none
    answer := none
    candidates := Candidates.empty
    usocket := none
    socketBound := false
    port := 0
    stunStarted := false
    dtlsHandlerArmed := false
    dtlsStarted := false
    dtlsConnected := false
    sctpStarted := false }

/-- `appendCandidate`: push into the set, then point the unicast view
(creating it on first use) at the set's primary.  The `[]` branch is
unreachable because a push never leaves the set empty. -/
def Session.appendCandidate (s : Session) (address : String)
    (port priority : Nat) : Session :=
  let cands := s.candidates.push address port priority
  match cands.list with
  | [] => { s with candidates := cands }
  | c :: _ =>
    { s with candidates := cands, usocket := some ⟨c.address, c.port⟩ }

/-- `startSCTP`: `sctp.createServer({transport: this.dtls})` plus handler
registration and `listen(5000)`. -/
def Session.startSCTP (s : Session) : Session :=
  { s with sctpStarted := true }

/-- `startDTLS`: `dtls.connect(...)` over the unicast view, register the
`connect`/`error` handlers (which only log), then call `startSCTP()`
synchronously. -/
def Session.startDTLS (s : Session) : Session :=
  Session.startSCTP { s with dtlsStarted := true }

/-- `startSTUN`: `stun.createServer(this[_socket])` plus handler and timer
registration. -/
def Session.startSTUN (s : Session) : Session :=
  { s with stunStarted := true }

/-- `listen(port)`: bind the UDP socket (the OS-assigned port is the
`osPort` argument), start the STUN agent, and arm the one-shot
binding-response handler that will start DTLS. -/
def Session.listen (s : Session) (osPort : Nat) : Session :=
  let s1 := { s with socketBound := true, port := osPort }
  let s2 := s1.startSTUN
  { s2 with dtlsHandlerArmed := true }

/-- The answer mid: `groups[0].mids` when the offer has a non-empty
`groups` array, else the literal `"data"`. -/
def offerMid (o : Offer) : String :=
  match o.groups with
  | some (g :: _) => g.mids
  | _ => "data"

/-- Success tail of `createAnswer`: store the parsed offer and peer
credentials/fingerprint, seed the candidate set from the IPv4 inline
candidates (each `appendCandidate` also redirects the unicast view), bind
and start the STUN agent via `listen`, and build the answer via
`sdp.create` with the host/srflx candidate pair over the bound port. -/
def Session.acceptOffer (s : Session) (o : Offer) (mediadata : MediaSection)
    (mid peerFp : String) (cands : List OfferCandidate) (osPort : Nat) :
    Session × Answer :=
  let s1 := { s with offer := some o,
                     peerIceUsername := some mediadata.iceUfrag,
                     peerIcePassword := some mediadata.icePwd,
                     peerFingerprint := some peerFp }
  let s3 := (cands.filter (fun c => isIPv4 c.ip)).foldl
    (fun st c => st.appendCandidate c.ip c.port c.priority) s1
  let s4 := s3.listen osPort
  let ans := sdpCreate s4.iceUsername s4.icePassword s4.fingerprint mid
    [⟨s4.internalIp, s4.port, "host"⟩, ⟨s4.publicIp, s4.port, "srflx"⟩]
  ({ s4 with answer := some ans }, ans)

/-- `createAnswer(offer)` of the `Session` class, with the offer already
parsed (`sdp.parse` is the external sdp-transform collaborator) and the
OS-assigned socket port passed explicitly.  Thrown errors become
`Except.error` of the thrown message; the partial mutations a JavaScript
throw would leave behind are not modelled (no claim observes them). -/
def Session.createAnswer (s : Session) (o : Offer) (osPort : Nat) :
    Except String (Session × Answer) :=
  if o.media.isEmpty then Except.error "Invalid SDP offer"
  else
    match findMediaData o.media with
    | none => Except.error "Datachannel not found"
    | some mediadata =>
      match resolvePeerFingerprint o.fingerprint mediadata.fingerprint with
      | Except.error e => Except.error e
      | Except.ok peerFp =>
        match mediadata.candidates with
        | none => Except.error "Session should have at least one candidate"
        | some cands =>
          Except.ok (s.acceptOffer o mediadata (offerMid o) peerFp cands osPort)

/-! ## Event-level semantics

The externally observable events that drive a session: a `createAnswer`
call from signalling, a STUN binding success response observed by the STUN
agent (`STUN_EVENT_BINDING_RESPONSE`), the DTLS `connect` event, and an
`appendCandidate` call (candidate trickle).  A `dtlsConnect` event can only
fire once the DTLS socket exists. -/

inductive Event where
  | createAnswerEv (o : Offer) (osPort : Nat)
  | stunBindingResponse
  | dtlsConnectEv
  | appendCandidateEv (address : String) (port priority : Nat)
deriving DecidableEq

def Session.step (s : Session) (e : Event) : Session :=
  match e with
  | Event.createAnswerEv o osPort =>
    match s.createAnswer o osPort with
    | Except.ok (s', _) => s'
    | Except.error _ => s
  | Event.stunBindingResponse =>
    if s.dtlsHandlerArmed then
      Session.startDTLS { s with dtlsHandlerArmed := false }
    else s
  | Event.dtlsConnectEv =>
    if s.dtlsStarted then { s with dtlsConnected := true } else s
  | Event.appendCandidateEv a p prio => s.appendCandidate a p prio

def Session.run (s : Session) (es : List Event) : Session :=
  es.foldl Session.step s

/-! ## STUN binding-request handler (installed by `startSTUN`)

The STUN message codec and its validators are external (`stun` package);
an inbound request is embedded by the data the handler inspects:
`fingerprintOk` is the result of `stun.validateFingerprint(req)`, and
`integrityKey` is the password under which
`stun.validateMessageIntegrity(req, pwd)` succeeds (`none` for a corrupted
message). -/

structure BindingRequest where
  username : String
  fingerprintOk : Bool
  integrityKey : Option String
  transactionId : Nat
deriving DecidableEq

structure BindingSuccessResponse where
  transactionId : Nat
  mappedAddress : String
  mappedPort : Nat
  integrityPassword : String
  fingerprintAdded : Bool
deriving DecidableEq

def validateMessageIntegrity (req : BindingRequest) (password : String) :
    Bool :=
  req.integrityKey == some password

/-- Template-literal coercion: JavaScript stringifies `null` inside a
template literal. -/
def jsShow : Option String → String
  | some x => x
  | none => "null"

/-- The `STUN_EVENT_BINDING_REQUEST` handler of `startSTUN`: three hard
assertions (fingerprint, message integrity keyed by the local password,
`USERNAME === localUfrag + ':' + peerUfrag`), then a binding success
response with `XOR-MAPPED-ADDRESS` of the sender, integrity keyed by the
local password, and a fingerprint.  A failed assertion throws before any
datagram is sent and before any state is touched: `Except.error` carries no
response and no mutated session. -/
def Session.handleBindingRequest (s : Session) (req : BindingRequest)
    (rinfoAddress : String) (rinfoPort : Nat) :
    Except String (Session × BindingSuccessResponse) :=
  if !req.fingerprintOk then
    Except.error "AssertionError: stun.validateFingerprint"
  else if !validateMessageIntegrity req s.icePassword then
    Except.error "AssertionError: stun.validateMessageIntegrity"
  else
    let expectedSender := s.iceUsername ++ ":" ++ jsShow s.peerIceUsername
    if req.username ≠ expectedSender then
      Except.error "AssertionError: sender === expectedSender"
    else
      Except.ok (s, ⟨req.transactionId, rinfoAddress, rinfoPort,
        s.icePassword, true⟩)

/-! ## Signalling façade (`index.js`)

`handleOffer`, `handleCandidate`, `getCandidates` and the `createCandidate`
string builder.  The endpoint state is the session registry plus the
discovered addresses; `getCandidates` receives the already base64-decoded
path parameter (`Buffer.from(username, 'base64')` is external). -/

structure NodeRTCState where
  sessions : List Session
  internal : String
  extIp : String
deriving DecidableEq

/-- `createCandidate(options)`: the `candidate:` attribute string.  The
`component` option is accepted but the template hard-codes component 1. -/
def createCandidate (foundation : Nat) (transport : String) (priority : Nat)
    (ip : String) (port : Nat) (ctype : String) (username : String) : String :=
  "candidate:" ++ toString foundation ++ " 1 " ++ transport ++ " " ++
    toString priority ++ " " ++ ip ++ " " ++ toString port ++ " typ " ++
    ctype ++ " generation 0 ufrag " ++ username

structure CandidateEntry where
  candidate : String
  sdpMLineIndex : Nat
  sdpMid : String
  usernameFragment : String
deriving DecidableEq

def sessionMatches (uname : String) (s : Session) : Bool :=
  s.peerIceUsername == some uname

/-- `GET /candidates/:username` handler: find the session whose peer ufrag
equals the decoded username and build the two fixed candidate entries.
When no session matches, `session` is `undefined` and `session.port`
throws a TypeError before any response is written. -/
def getCandidates (rtc : NodeRTCState) (uname : String) :
    Except String (List CandidateEntry) :=
  match rtc.sessions.find? (sessionMatches uname) with
  | none =>
    Except.error "TypeError: Cannot read property port of undefined"
  | some session =>
    Except.ok
      [⟨createCandidate 4235452027 "udp" 2113937151 rtc.internal session.port
          "host" session.iceUsername, 0, "data", session.iceUsername⟩,
       ⟨createCandidate 4235452028 "udp" 1677729535 rtc.extIp session.port
          "srflx" session.iceUsername, 0, "data", session.iceUsername⟩]

def updateFirstSession (p : Session → Bool) (f : Session → Session) :
    List Session → List Session
  | [] => []
  | s :: rest =>
    if p s then f s :: rest else s :: updateFirstSession p f rest

/-- `POST /candidate` handler: append the trickled candidate to the
matching session when one exists; `res.send()` runs unconditionally, so the
Bool result (a response was sent) is always `true`. -/
def handleCandidate (rtc : NodeRTCState) (ip : String) (port : Nat)
    (uname : String) (priority : Nat) : NodeRTCState × Bool :=
  match rtc.sessions.find? (sessionMatches uname) with
  | some _ =>
    let updated := updateFirstSession (sessionMatches uname)
      (fun s => s.appendCandidate ip port priority) rtc.sessions
    ({ rtc with sessions := updated }, true)
  | none => (rtc, true)

/-- `POST /offer` handler: assert `type === 'offer'`, create a session (the
fresh session is the `s` argument), await `createAnswer`.  A rejection of
`createAnswer` propagates to the signalling caller. -/
def handleOffer (s : Session) (bodyType : String) (o : Offer)
    (osPort : Nat) : Except String (Session × Answer) :=
  if bodyType ≠ "offer" then Except.error "Expected an SDP offer"
  else s.createAnswer o osPort

/-! ## Concrete inputs used by witnesses and counterexamples -/

def demoSession : Session :=
  initSession "10.0.0.7" "95.0.0.7" "AB:CD:EF" "usr1" "pwdpwdpwdpwdpwdpwdpwd1"

def demoSection : MediaSection :=
  { protocol := "DTLS/SCTP"
    iceUfrag := "A1b2"
    icePwd := "icepwdicepwdicepwd123"
    fingerprint := some ⟨"sha-256", "AA:BB"⟩
    candidates := some [⟨"1.2.3.4", 1000, 50⟩] }

/-- An offer with one DTLS/SCTP media section carrying one inline IPv4
candidate. -/
def demoOffer : Offer :=
  { media := [demoSection]
    fingerprint := none
    groups := none }

def demoSectionNoCandidates : MediaSection :=
  { protocol := "DTLS/SCTP"
    iceUfrag := "A1b2"
    icePwd := "icepwdicepwdicepwd123"
    fingerprint := some ⟨"sha-256", "AA:BB"⟩
    candidates := none }

/-- Same offer but with no inline `a=candidate:` lines: sdp-transform
leaves `candidates` undefined. -/
def demoOfferNoCandidates : Offer :=
  { media := [demoSectionNoCandidates]
    fingerprint := none
    groups := none }

/-- An offer whose only media section is not DTLS/SCTP. -/
def demoOfferNoDtlsSctp : Offer :=
  { media := [{ protocol := "UDP/TLS/RTP/SAVPF"
                iceUfrag := "A1b2"
                icePwd := "icepwdicepwdicepwd123"
                fingerprint := some ⟨"sha-256", "AA:BB"⟩
                candidates := some [] }]
    fingerprint := none
    groups := none }

/-- Accepted offer followed by the first STUN binding success. -/
def demoTrace : List Event :=
  [Event.createAnswerEv demoOffer 5555, Event.stunBindingResponse]

/-- A trace that never observes a STUN binding success. -/
def demoTraceNoStun : List Event :=
  [Event.createAnswerEv demoOffer 5555, Event.dtlsConnectEv,
   Event.appendCandidateEv "2.2.2.2" 2000 100]

def exceptIsOk {ε α : Type} : Except ε α → Bool
  | Except.ok _ => true
  | Except.error _ => false

/-! ## Lemmas about the candidate set -/

theorem push_list (S : Candidates) (a : String) (p prio : Nat) :
    (S.push a p prio).list = sortedAdd S.list ⟨a, p, prio⟩ := rfl

theorem sortedAdd_ne_nil (l : List Candidate) (v : Candidate) :
    sortedAdd l v ≠ [] := by
  cases l with
  | nil => simp [sortedAdd]
  | cons x xs =>
    simp only [sortedAdd]
    split <;> simp

theorem mem_sortedAdd (x : Candidate) (l : List Candidate) (v : Candidate) :
    x ∈ sortedAdd l v ↔ x = v ∨ x ∈ l := by
  induction l with
  | nil => simp [sortedAdd]
  | cons a t ih =>
    simp only [sortedAdd]
    split
    · simp [List.mem_cons]
    · simp only [List.mem_cons, ih]
      tauto

theorem sortedAdd_pairwise (l : List Candidate) (v : Candidate)
    (h : Descending l) : Descending (sortedAdd l v) := by
  induction l with
  | nil => simp [sortedAdd]
  | cons x xs ih =>
    obtain ⟨hx, hxs⟩ := List.pairwise_cons.mp h
    simp only [sortedAdd]
    split
    · rename_i hlt
      refine List.pairwise_cons.mpr ⟨?_, List.pairwise_cons.mpr ⟨hx, hxs⟩⟩
      intro b hb
      rcases List.mem_cons.mp hb with rfl | hb
      · exact Nat.le_of_lt hlt
      · exact Nat.le_trans (hx b hb) (Nat.le_of_lt hlt)
    · rename_i hge
      refine List.pairwise_cons.mpr ⟨?_, ih hxs⟩
      intro b hb
      rcases (mem_sortedAdd b xs v).mp hb with rfl | hb
      · exact Nat.le_of_not_lt hge
      · exact hx b hb

theorem descending_head_ge (l : List Candidate) (c : Candidate)
    (h : Descending l) (hc : l.head? = some c) :
    ∀ x ∈ l, x.priority ≤ c.priority := by
  cases l with
  | nil => cases hc
  | cons a t =>
    simp only [List.head?] at hc
    injection hc with hac
    subst hac
    intro x hx
    rcases List.mem_cons.mp hx with rfl | hx
    · exact Nat.le_refl _
    · exact (List.pairwise_cons.mp h).1 x hx

theorem sortedAdd_eq_cons (l : List Candidate) (v : Candidate)
    (h : ∀ x ∈ l, x.priority < v.priority) : sortedAdd l v = v :: l := by
  cases l with
  | nil => rfl
  | cons x xs =>
    simp only [sortedAdd]
    rw [if_pos (h x (List.mem_cons_self x xs))]

theorem primaryAddress_error_iff (T : Candidates) :
    (∃ e, T.primaryAddress = Except.error e) ↔ T.list = [] := by
  cases hT : T.list with
  | nil => simp [Candidates.primaryAddress, hT]
  | cons c t => simp [Candidates.primaryAddress, hT]

theorem primaryPort_error_iff (T : Candidates) :
    (∃ e, T.primaryPort = Except.error e) ↔ T.list = [] := by
  cases hT : T.list with
  | nil => simp [Candidates.primaryPort, hT]
  | cons c t => simp [Candidates.primaryPort, hT]

/-! ## Lemmas about the session state machine -/

/-- `appendCandidate` only touches the candidate set and the unicast
view. -/
theorem appendCandidate_char (s : Session) (a : String) (p prio : Nat) :
    ∃ u : Option Unicast, s.appendCandidate a p prio =
      { s with candidates := s.candidates.push a p prio, usocket := u } := by
  cases hl : (s.candidates.push a p prio).list with
  | nil => exact ⟨s.usocket, by simp [Session.appendCandidate, hl]⟩
  | cons c t =>
    exact ⟨some ⟨c.address, c.port⟩, by simp [Session.appendCandidate, hl]⟩

/-- Folding `appendCandidate` over a candidate list only touches the
candidate set and the unicast view. -/
theorem foldlAppend_char (l : List OfferCandidate) (s : Session) :
    ∃ cset u,
      l.foldl (fun st c => st.appendCandidate c.ip c.port c.priority) s =
        { s with candidates := cset, usocket := u } := by
  induction l generalizing s with
  | nil => exact ⟨s.candidates, s.usocket, rfl⟩
  | cons c t ih =>
    obtain ⟨u, hu⟩ := appendCandidate_char s c.ip c.port c.priority
    obtain ⟨cset, u', h⟩ := ih (s.appendCandidate c.ip c.port c.priority)
    refine ⟨cset, u', ?_⟩
    rw [List.foldl_cons, h, hu]

/-- A successful `acceptOffer` is a record update of the incoming session:
peer data stored, candidate set and unicast view filled, socket bound on
`osPort`, STUN started, the one-shot DTLS trigger armed, and the answer
built over the caller's internal/public addresses and the bound port. -/
theorem acceptOffer_char (s : Session) (o : Offer) (m : MediaSection)
    (mid fp : String) (cands : List OfferCandidate) (osPort : Nat) :
    ∃ cset u,
      Session.acceptOffer s o m mid fp cands osPort =
        ({ s with offer := some o,
                  peerIceUsername := some m.iceUfrag,
                  peerIcePassword := some m.icePwd,
                  peerFingerprint := some fp,
                  candidates := cset,
                  usocket := u,
                  socketBound := true,
                  port := osPort,
                  stunStarted := true,
                  dtlsHandlerArmed := true,
                  answer := some (sdpCreate s.iceUsername s.icePassword
                    s.fingerprint mid [⟨s.internalIp, osPort, "host"⟩,
                      ⟨s.publicIp, osPort, "srflx"⟩]) },
         sdpCreate s.iceUsername s.icePassword s.fingerprint mid
           [⟨s.internalIp, osPort, "host"⟩, ⟨s.publicIp, osPort, "srflx"⟩]) := by
  obtain ⟨cset, u, hf⟩ := foldlAppend_char (cands.filter (fun c => isIPv4 c.ip))
    { s with offer := some o,
             peerIceUsername := some m.iceUfrag,
             peerIcePassword := some m.icePwd,
             peerFingerprint := some fp }
  refine ⟨cset, u, ?_⟩
  dsimp only [Session.acceptOffer]
  rw [hf]
  rfl

/-- A successful `createAnswer` is an `acceptOffer` on the first DTLS/SCTP
media section. -/
theorem createAnswer_ok_char (s : Session) (o : Offer) (osPort : Nat)
    (s' : Session) (a : Answer)
    (h : s.createAnswer o osPort = Except.ok (s', a)) :
    ∃ m mid fp cands, findMediaData o.media = some m ∧
      m.candidates = some cands ∧
      (s', a) = Session.acceptOffer s o m mid fp cands osPort := by
  unfold Session.createAnswer at h
  split at h
  · exact Except.noConfusion h
  split at h
  · exact Except.noConfusion h
  rename_i mediadata hfind
  split at h
  · exact Except.noConfusion h
  rename_i peerFp hfp
  split at h
  · exact Except.noConfusion h
  rename_i cands hcands
  refine ⟨mediadata, offerMid o, peerFp, cands, hfind, hcands, ?_⟩
  injection h with h
  exact h.symm

/-- `createAnswer` leaves the DTLS/SCTP flags and the identity fields of
the session unchanged on success. -/
theorem createAnswer_ok_flags (s : Session) (o : Offer) (osPort : Nat)
    (s' : Session) (a : Answer)
    (h : s.createAnswer o osPort = Except.ok (s', a)) :
    s'.dtlsStarted = s.dtlsStarted ∧ s'.sctpStarted = s.sctpStarted ∧
      s'.dtlsConnected = s.dtlsConnected := by
  obtain ⟨m, mid, fp, cands, -, -, hc⟩ := createAnswer_ok_char s o osPort s' a h
  obtain ⟨cset, u, hco⟩ := acceptOffer_char s o m mid fp cands osPort
  rw [hco] at hc
  have hs : s' = (Prod.fst (α := Session) (β := Answer)
      ({ s with offer := some o,
                peerIceUsername := some m.iceUfrag,
                peerIcePassword := some m.icePwd,
                peerFingerprint := some fp,
                candidates := cset,
                usocket := u,
                socketBound := true,
                port := osPort,
                stunStarted := true,
                dtlsHandlerArmed := true,
                answer := some (sdpCreate s.iceUsername s.icePassword
                  s.fingerprint mid [⟨s.internalIp, osPort, "host"⟩,
                    ⟨s.publicIp, osPort, "srflx"⟩]) },
       sdpCreate s.iceUsername s.icePassword s.fingerprint mid
         [⟨s.internalIp, osPort, "host"⟩, ⟨s.publicIp, osPort, "srflx"⟩])) :=
    congrArg Prod.fst hc
  rw [hs]
  exact ⟨rfl, rfl, rfl⟩

/-- A step keeps the invariant that the SCTP server exists exactly when the
DTLS client has been started. -/
theorem step_sctp_eq_dtls (s : Session) (e : Event)
    (h : s.sctpStarted = s.dtlsStarted) :
    (s.step e).sctpStarted = (s.step e).dtlsStarted := by
  cases e with
  | createAnswerEv o p =>
    simp only [Session.step]
    cases hc : s.createAnswer o p with
    | error err => exact h
    | ok r =>
      obtain ⟨s', a⟩ := r
      obtain ⟨f1, f2, -⟩ := createAnswer_ok_flags s o p s' a hc
      show s'.sctpStarted = s'.dtlsStarted
      rw [f1, f2]
      exact h
  | stunBindingResponse =>
    simp only [Session.step]
    split
    · rfl
    · exact h
  | dtlsConnectEv =>
    simp only [Session.step]
    split
    · exact h
    · exact h
  | appendCandidateEv a p prio =>
    obtain ⟨u, hu⟩ := appendCandidate_char s a p prio
    show (s.appendCandidate a p prio).sctpStarted =
      (s.appendCandidate a p prio).dtlsStarted
    rw [hu]
    exact h

/-- No step other than an observed STUN binding success can start DTLS. -/
theorem step_preserves_no_dtls (s : Session) (e : Event)
    (he : e ≠ Event.stunBindingResponse) (h : s.dtlsStarted = false) :
    (s.step e).dtlsStarted = false := by
  cases e with
  | createAnswerEv o p =>
    simp only [Session.step]
    cases hc : s.createAnswer o p with
    | error err => exact h
    | ok r =>
      obtain ⟨s', a⟩ := r
      obtain ⟨f1, -, -⟩ := createAnswer_ok_flags s o p s' a hc
      show s'.dtlsStarted = false
      rw [f1]
      exact h
  | stunBindingResponse => exact absurd rfl he
  | dtlsConnectEv =>
    simp only [Session.step]
    split
    · exact h
    · exact h
  | appendCandidateEv a p prio =>
    obtain ⟨u, hu⟩ := appendCandidate_char s a p prio
    show (s.appendCandidate a p prio).dtlsStarted = false
    rw [hu]
    exact h

/-! ## Claim C1 -/

/-- C1, counterexample: the claim says the SCTP server is created strictly
after the DTLS `connect` event has fired, never before.  In the run that
accepts an offer and then observes the first STUN binding success, the SCTP
server is already created while the DTLS `connect` event has never fired:
`startDTLS` calls `startSCTP()` synchronously instead of waiting for the
`connect` event. -/
theorem C1_counterexample :
    (demoSession.run demoTrace).sctpStarted = true ∧
    (demoSession.run demoTrace).dtlsConnected = false := by
  exact ⟨rfl, rfl⟩

/-- C1, amended: in every reachable session state the SCTP server has been
created exactly when the DTLS client has been started — SCTP starts
synchronously with DTLS (after the first STUN binding success), not after
the DTLS `connect` event. -/
theorem C1_sctp_starts_with_dtls (internal ext fgprint u pw : String)
    (es : List Event) :
    ((initSession internal ext fgprint u pw).run es).sctpStarted =
      ((initSession internal ext fgprint u pw).run es).dtlsStarted := by
  have main : ∀ (es : List Event) (s : Session),
      s.sctpStarted = s.dtlsStarted →
      (s.run es).sctpStarted = (s.run es).dtlsStarted := by
    intro es
    induction es with
    | nil => intro s h; exact h
    | cons e t ih => intro s h; exact ih (s.step e) (step_sctp_eq_dtls s e h)
  exact main es (initSession internal ext fgprint u pw) rfl

/-! ## Claim C4 -/

/-- C4: DTLS is initiated only after the STUN agent observes a binding
success response: a run containing no `STUN_EVENT_BINDING_RESPONSE` event
never starts the DTLS client. -/
theorem C4_no_dtls_without_binding_success (internal ext fgprint u pw : String)
    (es : List Event) (h : Event.stunBindingResponse ∉ es) :
    ((initSession internal ext fgprint u pw).run es).dtlsStarted = false := by
  have main : ∀ (es : List Event) (s : Session),
      Event.stunBindingResponse ∉ es → s.dtlsStarted = false →
      (s.run es).dtlsStarted = false := by
    intro es
    induction es with
    | nil => intro s _ h0; exact h0
    | cons e t ih =>
      intro s hmem h0
      have he : e ≠ Event.stunBindingResponse := by
        intro hq
        exact hmem (hq ▸ List.mem_cons_self e t)
      exact ih (s.step e) (fun ht => hmem (List.mem_cons_of_mem e ht))
        (step_preserves_no_dtls s e he h0)
  exact main es (initSession internal ext fgprint u pw) h rfl

/-- C4, witness: the trace that accepts an offer, sees a DTLS connect
attempt event and a trickled candidate, but no binding success, leaves DTLS
unstarted. -/
theorem C4_witness :
    ((initSession "10.0.0.7" "95.0.0.7" "AB:CD:EF" "usr1"
      "pwdpwdpwdpwdpwdpwdpwd1").run demoTraceNoStun).dtlsStarted = false :=
  C4_no_dtls_without_binding_success "10.0.0.7" "95.0.0.7" "AB:CD:EF" "usr1"
    "pwdpwdpwdpwdpwdpwdpwd1" demoTraceNoStun (by decide)

/-! ## Claim C2 -/

theorem candidatePriority_host : candidatePriority "host" = 2130706431 := rfl

theorem candidatePriority_srflx :
    candidatePriority "srflx" = 1073742079 := rfl

/-- C2, counterexample: the claim says the two `a=candidate:` lines of an
accepted answer carry priorities 2113937151 (host) and 1677729535 (srflx).
On the accepted demo offer the serialiser computes 2130706431 (host) and
1073742079 (srflx) from the RFC 8445 formula, and 2130706431 is not
2113937151. -/
theorem C2_counterexample :
    (demoSession.createAnswer demoOffer 5555).toOption.map
        (fun r => r.2.candidates.map (fun c => (c.ctype, c.priority))) =
      some [("host", 2130706431), ("srflx", 1073742079)] ∧
    (2130706431 : Nat) ≠ 2113937151 := by
  exact ⟨rfl, by decide⟩

/-- C2, amended: every accepted offer yields an answer with exactly two
`a=candidate:` lines — a host candidate with the internal IP and the bound
socket port, and a srflx candidate with the public IP and the same port —
whose priorities are 2130706431 (host) and 1073742079 (srflx), the values
of the RFC 8445 formula used by the serialiser. -/
theorem C2_answer_two_candidates (s : Session) (o : Offer) (osPort : Nat)
    (s' : Session) (a : Answer)
    (h : s.createAnswer o osPort = Except.ok (s', a)) :
    a.candidates =
      [⟨s.internalIp, osPort, "host", 2130706431, "udp", 1, 0, none, none⟩,
       ⟨s.publicIp, osPort, "srflx", 1073742079, "udp", 1, 1,
         some s.internalIp, some osPort⟩] := by
  obtain ⟨m, mid, fp, cands, -, -, hc⟩ := createAnswer_ok_char s o osPort s' a h
  obtain ⟨cset, u, hco⟩ := acceptOffer_char s o m mid fp cands osPort
  have ha : a = sdpCreate s.iceUsername s.icePassword s.fingerprint mid
      [⟨s.internalIp, osPort, "host"⟩, ⟨s.publicIp, osPort, "srflx"⟩] :=
    (congrArg Prod.snd hc).trans (congrArg Prod.snd hco)
  rw [ha]
  simp [sdpCreate, sdpCreateCandidates, mapOutCandidates, mkOutCandidate,
    candidatePriority, typePreference]

/-- C2, witness for the amended theorem at the accepted demo offer. -/
theorem C2_witness :
    (demoSession.createAnswer demoOffer 5555).toOption.map
        (fun r => r.2.candidates) =
      some [⟨"10.0.0.7", 5555, "host", 2130706431, "udp", 1, 0, none, none⟩,
        ⟨"95.0.0.7", 5555, "srflx", 1073742079, "udp", 1, 1,
          some "10.0.0.7", some 5555⟩] := by
  have hok : exceptIsOk (demoSession.createAnswer demoOffer 5555) = true := rfl
  cases hh : demoSession.createAnswer demoOffer 5555 with
  | error e =>
    rw [hh] at hok
    exact absurd hok (by simp [exceptIsOk])
  | ok r =>
    have hc := C2_answer_two_candidates demoSession demoOffer 5555 r.1 r.2
      (by rw [hh])
    simp [Except.toOption, hc, demoSession, initSession]

/-! ## Claim C3 -/

/-- C3, counterexample: the claim says an offer with a DTLS/SCTP media
section but no inline `a=candidate:` lines is accepted.  `createAnswer`
rejects it: sdp-transform leaves `candidates` undefined and the
`Array.isArray` guard throws `Session should have at least one
candidate`. -/
theorem C3_counterexample :
    demoSession.createAnswer demoOfferNoCandidates 5555 =
      Except.error "Session should have at least one candidate" := rfl

/-- C3, amended: an offer whose first DTLS/SCTP media section carries no
inline candidates array is rejected by `createAnswer` with the TypeError
message `Session should have at least one candidate` (provided the peer
fingerprint is resolvable, which is checked first). -/
theorem C3_no_candidates_rejected (s : Session) (o : Offer) (osPort : Nat)
    (m : MediaSection) (hfind : findMediaData o.media = some m)
    (hfp : o.fingerprint.isSome = true ∨ m.fingerprint.isSome = true)
    (hc : m.candidates = none) :
    s.createAnswer o osPort =
      Except.error "Session should have at least one candidate" := by
  have hne : o.media.isEmpty = false := by
    cases hm : o.media with
    | nil =>
      rw [hm] at hfind
      exact Option.noConfusion hfind
    | cons _ _ => rfl
  cases hof : o.fingerprint with
  | some f =>
    simp [Session.createAnswer, hne, hfind, resolvePeerFingerprint, hof, hc]
  | none =>
    cases hmf : m.fingerprint with
    | some f =>
      simp [Session.createAnswer, hne, hfind, resolvePeerFingerprint, hof,
        hmf, hc]
    | none =>
      rw [hof, hmf] at hfp
      simp at hfp

/-- C3, witness for the amended theorem at the candidate-free demo
offer. -/
theorem C3_witness :
    demoSession.createAnswer demoOfferNoCandidates 5555 =
      Except.error "Session should have at least one candidate" :=
  C3_no_candidates_rejected demoSession demoOfferNoCandidates 5555
    demoSectionNoCandidates (by decide) (Or.inr (by decide)) (by decide)

/-! ## Claim C5 -/

theorem mapOutCandidates_getElem (first : InCandidate) (k : Nat)
    (l : List InCandidate) (i : Nat) :
    (mapOutCandidates first k l)[i]? =
      l[i]?.map (mkOutCandidate first (k + i)) := by
  induction l generalizing k i with
  | nil => simp [mapOutCandidates]
  | cons c t ih =>
    cases i with
    | zero => simp [mapOutCandidates]
    | succ i' =>
      simp only [mapOutCandidates, List.getElem?_cons_succ, ih]
      have : k + (i' + 1) = k + 1 + i' := by omega
      rw [this]

/-- The priority emitted by `mkOutCandidate` is `candidatePriority` of the
candidate's type, irrespective of the index branch. -/
theorem mkOutCandidate_priority (first : InCandidate) (i : Nat)
    (c : InCandidate) :
    (mkOutCandidate first i c).priority = candidatePriority c.ctype := by
  unfold mkOutCandidate
  split <;> rfl

/-- C5: every `a=candidate:` line serialised from a candidate list carries
the RFC 8445 priority `2^24 * typePref + 256 * localPref + (256 - 1)`, with
type preferences host 126, srflx 64, prflx 16, relay 8 and local
preference 65535 for host, 0 otherwise. -/
theorem C5_priority_formula (cands : List InCandidate) (i : Nat)
    (c : InCandidate) (hc : cands[i]? = some c)
    (ht : c.ctype = "host" ∨ c.ctype = "srflx" ∨ c.ctype = "prflx" ∨
      c.ctype = "relay") :
    ∃ o : OutCandidate, (sdpCreateCandidates cands)[i]? = some o ∧
      o.priority =
        2 ^ 24 * (if c.ctype = "host" then 126 else if c.ctype = "srflx"
            then 64 else if c.ctype = "prflx" then 16 else 8) +
          256 * (if c.ctype = "host" then 65535 else 0) + (256 - 1) := by
  cases hl : cands with
  | nil =>
    rw [hl] at hc
    simp at hc
  | cons first rest =>
    refine ⟨mkOutCandidate first i c, ?_, ?_⟩
    · show (mapOutCandidates first 0 (first :: rest))[i]? = _
      rw [mapOutCandidates_getElem, ← hl, hc]
      simp
    · rw [mkOutCandidate_priority]
      rcases ht with h | h | h | h <;> rw [h] <;>
        simp [candidatePriority, typePreference]

/-- C5, witness at a one-element host candidate list. -/
theorem C5_witness :
    ∃ o : OutCandidate,
      (sdpCreateCandidates [⟨"10.0.0.7", 5555, "host"⟩])[0]? = some o ∧
      o.priority =
        2 ^ 24 * (if ("host" : String) = "host" then 126
            else if ("host" : String) = "srflx" then 64
            else if ("host" : String) = "prflx" then 16 else 8) +
          256 * (if ("host" : String) = "host" then 65535 else 0) +
          (256 - 1) :=
  C5_priority_formula [⟨"10.0.0.7", 5555, "host"⟩] 0 ⟨"10.0.0.7", 5555, "host"⟩
    rfl (Or.inl rfl)

/-! ## Claim C6 -/

/-- `List.find?` returns the first element satisfying the test: every
earlier index fails it. -/
theorem find?_first_mediadata (p : MediaSection → Bool)
    (l : List MediaSection) (m : MediaSection) (h : l.find? p = some m) :
    ∃ i, l[i]? = some m ∧ p m = true ∧
      ∀ j : Nat, j < i → ∀ m' : MediaSection, l[j]? = some m' →
        p m' = false := by
  induction l with
  | nil => exact Option.noConfusion h
  | cons a t ih =>
    cases hpa : p a with
    | true =>
      rw [List.find?_cons_of_pos _ hpa] at h
      injection h with h
      subst h
      exact ⟨0, by simp, hpa, fun j hj => absurd hj (Nat.not_lt_zero j)⟩
    | false =>
      rw [List.find?_cons_of_neg _ (by simp [hpa])] at h
      obtain ⟨i, h1, h2, h3⟩ := ih h
      refine ⟨i + 1, by simpa using h1, h2, ?_⟩
      intro j hj m' hm'
      cases j with
      | zero =>
        simp only [List.getElem?_cons_zero] at hm'
        injection hm' with hm'
        subst hm'
        exact hpa
      | succ j' =>
        rw [List.getElem?_cons_succ] at hm'
        exact h3 j' (Nat.lt_of_succ_lt_succ hj) m' hm'

/-- C6: `createAnswer` selects the first media section whose protocol
contains `DTLS/SCTP` (first conjunct characterises `findMediaData`); when
the offer has no such section it throws (`Datachannel not found`, or
`Invalid SDP offer` for an empty media list — both are the spec's
`InvalidOffer`), and the signalling offer call propagates exactly that
rejection. -/
theorem C6_first_dtls_sctp_selection :
    (∀ (s : Session) (o : Offer) (osPort : Nat),
      (∀ m ∈ o.media, jsIncludes m.protocol "DTLS/SCTP" = false) →
      (∃ e, s.createAnswer o osPort = Except.error e) ∧
        handleOffer s "offer" o osPort = s.createAnswer o osPort) ∧
    (∀ (media : List MediaSection) (m : MediaSection),
      findMediaData media = some m →
      ∃ i, media[i]? = some m ∧
        jsIncludes m.protocol "DTLS/SCTP" = true ∧
        ∀ j : Nat, j < i → ∀ m' : MediaSection, media[j]? = some m' →
          jsIncludes m'.protocol "DTLS/SCTP" = false) := by
  constructor
  · intro s o osPort h
    constructor
    · cases hm : o.media with
      | nil => exact ⟨"Invalid SDP offer", by simp [Session.createAnswer, hm]⟩
      | cons m0 t =>
        have hfind : findMediaData o.media = none := by
          rw [findMediaData, List.find?_eq_none]
          intro x hx
          simp [h x hx]
        rw [hm] at hfind
        exact ⟨"Datachannel not found", by simp [Session.createAnswer, hm, hfind]⟩
    · simp [handleOffer]
  · intro media m h
    exact find?_first_mediadata _ media m h

/-- C6, witness: an offer whose only media section is not DTLS/SCTP is
rejected and the rejection reaches the signalling caller; the demo offer's
DTLS/SCTP section is found at index 0. -/
theorem C6_witness :
    ((∃ e, demoSession.createAnswer demoOfferNoDtlsSctp 5555 =
        Except.error e) ∧
      handleOffer demoSession "offer" demoOfferNoDtlsSctp 5555 =
        demoSession.createAnswer demoOfferNoDtlsSctp 5555) ∧
    (∃ i, demoOffer.media[i]? = some demoSection ∧
      jsIncludes demoSection.protocol "DTLS/SCTP" = true ∧
      ∀ j : Nat, j < i → ∀ m' : MediaSection, demoOffer.media[j]? = some m' →
        jsIncludes m'.protocol "DTLS/SCTP" = false) :=
  ⟨C6_first_dtls_sctp_selection.1 demoSession demoOfferNoDtlsSctp 5555
      (by decide),
   C6_first_dtls_sctp_selection.2 demoOffer.media demoSection (by decide)⟩

/-! ## Claim C7 -/

/-- C7: after every `push` on a descending candidate set the head of the
collection (what `primaryAddress`/`primaryPort` expose) has priority at
least the pushed priority and every priority previously present; the
internal order stays descending; and the primary getters fail with the
`Empty` error exactly on an empty collection. -/
theorem C7_push_primary_invariant (S : Candidates) (a : String)
    (p prio : Nat) (h : Descending S.list) :
    Descending (S.push a p prio).list ∧
    (∃ c, (S.push a p prio).list.head? = some c ∧ prio ≤ c.priority ∧
      ∀ x ∈ S.list, x.priority ≤ c.priority) ∧
    (∀ T : Candidates,
      ((∃ e, T.primaryAddress = Except.error e) ↔ T.list = []) ∧
      ((∃ e, T.primaryPort = Except.error e) ↔ T.list = [])) := by
  have hsorted : Descending (S.push a p prio).list :=
    sortedAdd_pairwise S.list ⟨a, p, prio⟩ h
  refine ⟨hsorted, ?_, ?_⟩
  · cases hl : (S.push a p prio).list with
    | nil => exact absurd hl (sortedAdd_ne_nil S.list ⟨a, p, prio⟩)
    | cons c t =>
      rw [hl] at hsorted
      have hall : ∀ x ∈ c :: t, x.priority ≤ c.priority :=
        descending_head_ge (c :: t) c hsorted rfl
      refine ⟨c, rfl, ?_, ?_⟩
      · have hv : (⟨a, p, prio⟩ : Candidate) ∈ (S.push a p prio).list :=
          (mem_sortedAdd _ _ _).mpr (Or.inl rfl)
        rw [hl] at hv
        exact hall _ hv
      · intro x hx
        have hx' : x ∈ (S.push a p prio).list :=
          (mem_sortedAdd _ _ _).mpr (Or.inr hx)
        rw [hl] at hx'
        exact hall x hx'
  · intro T
    exact ⟨primaryAddress_error_iff T, primaryPort_error_iff T⟩

/-- C7, witness: the S3 scenario set, pushing priority 100 over an existing
priority-50 entry. -/
theorem C7_witness :
    Descending ((Candidates.empty.push "1.1.1.1" 1000 50).push
      "2.2.2.2" 2000 100).list :=
  (C7_push_primary_invariant (Candidates.empty.push "1.1.1.1" 1000 50)
    "2.2.2.2" 2000 100 (by decide)).1

/-! ## Claim C8 -/

/-- C8: `appendCandidate` always points the unicast view at the candidate
set's primary (the head of the descending list); in particular when the
pushed priority exceeds every priority previously present, the view's
remote becomes exactly the pushed address/port. -/
theorem C8_append_updates_unicast (s : Session) (a : String)
    (p prio : Nat) :
    (∃ c, (s.appendCandidate a p prio).candidates.list.head? = some c ∧
      (s.appendCandidate a p prio).usocket = some ⟨c.address, c.port⟩) ∧
    ((∀ x ∈ s.candidates.list, x.priority < prio) →
      (s.appendCandidate a p prio).usocket = some ⟨a, p⟩) := by
  constructor
  · cases hl : (s.candidates.push a p prio).list with
    | nil => exact absurd hl (sortedAdd_ne_nil s.candidates.list ⟨a, p, prio⟩)
    | cons c t =>
      refine ⟨c, ?_, ?_⟩
      · simp [Session.appendCandidate, hl]
      · simp [Session.appendCandidate, hl]
  · intro hall
    have hcons : (s.candidates.push a p prio).list =
        ⟨a, p, prio⟩ :: s.candidates.list :=
      sortedAdd_eq_cons s.candidates.list ⟨a, p, prio⟩ hall
    simp [Session.appendCandidate, hcons]

/-- C8, witness: pushing a strictly higher priority onto the S3 scenario
session redirects the unicast view to the new candidate. -/
theorem C8_witness :
    ((demoSession.appendCandidate "1.1.1.1" 1000 50).appendCandidate
      "2.2.2.2" 2000 100).usocket = some ⟨"2.2.2.2", 2000⟩ :=
  (C8_append_updates_unicast (demoSession.appendCandidate "1.1.1.1" 1000 50)
    "2.2.2.2" 2000 100).2 (by decide)

/-! ## Claim C9 -/

/-- C9: an inbound STUN Binding Request whose USERNAME differs from
`localUfrag:peerUfrag`, or whose FINGERPRINT or MESSAGE-INTEGRITY (keyed by
the local password) fails validation, produces no binding response and no
session mutation: the handler aborts with an assertion error before any
datagram is sent. -/
theorem C9_invalid_binding_request_dropped (s : Session)
    (req : BindingRequest) (addr : String) (port : Nat)
    (h : req.username ≠ s.iceUsername ++ ":" ++ jsShow s.peerIceUsername ∨
      req.fingerprintOk = false ∨
      validateMessageIntegrity req s.icePassword = false) :
    ∃ e, s.handleBindingRequest req addr port = Except.error e := by
  unfold Session.handleBindingRequest
  split
  · exact ⟨_, rfl⟩
  split
  · exact ⟨_, rfl⟩
  dsimp only
  split
  · exact ⟨_, rfl⟩
  rename_i h1 h2 h3
  simp only [Bool.not_eq_true'] at h1 h2
  rcases h with hu | hf | hi
  · exact absurd (not_not.mp h3) hu
  · exact absurd hf h1
  · exact absurd hi h2

/-- C9, witness: a request with the wrong USERNAME is dropped with no
response. -/
theorem C9_witness :
    ∃ e, demoSession.handleBindingRequest
      ⟨"wrong:user", true, some "pwdpwdpwdpwdpwdpwdpwd1", 7⟩
      "10.0.0.5" 4000 = Except.error e :=
  C9_invalid_binding_request_dropped demoSession
    ⟨"wrong:user", true, some "pwdpwdpwdpwdpwdpwdpwd1", 7⟩ "10.0.0.5" 4000
    (Or.inl (by decide))

/-! ## Claim C10 -/

/-- C10: when the decoded username of `GET /candidates/:username` matches
no live session, the handler dereferences the undefined session
(`session.port`) and throws before writing any response, while
`POST /candidate` tolerates the missing session, leaves the registry
unchanged, and always replies with an empty acknowledgement. -/
theorem C10_get_candidates_vs_post_candidate (rtc : NodeRTCState)
    (uname ip : String) (port prio : Nat)
    (h : rtc.sessions.find? (sessionMatches uname) = none) :
    (∃ e, getCandidates rtc uname = Except.error e) ∧
    handleCandidate rtc ip port uname prio = (rtc, true) ∧
    (∀ (rtc2 : NodeRTCState) (ip2 : String) (port2 : Nat) (u2 : String)
      (prio2 : Nat), (handleCandidate rtc2 ip2 port2 u2 prio2).2 = true) := by
  refine ⟨⟨"TypeError: Cannot read property port of undefined", ?_⟩, ?_, ?_⟩
  · simp [getCandidates, h]
  · simp [handleCandidate, h]
  · intro rtc2 ip2 port2 u2 prio2
    unfold handleCandidate
    split <;> rfl

/-- C10, witness at an endpoint with no live sessions. -/
theorem C10_witness :
    (∃ e, getCandidates ⟨[], "10.0.0.7", "95.0.0.7"⟩ "A1b2" =
      Except.error e) ∧
    handleCandidate ⟨[], "10.0.0.7", "95.0.0.7"⟩ "1.2.3.4" 1000 "A1b2" 50 =
      (⟨[], "10.0.0.7", "95.0.0.7"⟩, true) ∧
    (∀ (rtc2 : NodeRTCState) (ip2 : String) (port2 : Nat) (u2 : String)
      (prio2 : Nat), (handleCandidate rtc2 ip2 port2 u2 prio2).2 = true) :=
  C10_get_candidates_vs_post_candidate ⟨[], "10.0.0.7", "95.0.0.7"⟩ "A1b2"
    "1.2.3.4" 1000 50 (by decide)

end NodeRTC
